import Mathlib

/-!
Verification of the billing-notifier program (src/main.rs).

The development shallowly embeds the two pieces of logic of the program:
the date-window computation `get_date_interval_from_end_date` and the
cost-report extraction inside `AwsCostClient::get_cost`, together with the
message formatting and the sequencing of `main`.

Modelling conventions:
- Calendar dates (chrono `Date<Utc>`) are triples year/month/day in the
  proleptic Gregorian calendar.  The program serializes dates with the
  chrono format string "%Y-%m-%d" (4-digit zero-padded year for years
  0..9999); `isValidDate` describes the dates representable in that
  YYYY-MM-DD serialization.
- `f32::from_str` is modelled by `parseF32`, which follows the grammar
  documented for Rust float parsing; finite values are kept as exact
  decimal rationals (every value appearing in the claims is an exactly
  representable decimal, so no rounding behaviour is needed).
- Rust `Result`-bearing code returns an explicit outcome; the `HashMap`
  index expression `&total_cost[UNBLENDED_COST]` aborts the process when
  the key is absent, modelled by the distinguished outcome
  `ExtractResult.panic`.
-/

/-- A calendar date: proleptic Gregorian year, month (1-12), day (1-31).
Models chrono `Date<Utc>` (the program never uses the time-of-day). -/
structure CivilDate where
  year : Int
  month : Nat
  day : Nat
deriving DecidableEq, Repr

/-- Gregorian leap-year rule. -/
def isLeapYear (y : Int) : Bool :=
  y % 4 = 0 && (y % 100 ≠ 0 || y % 400 = 0)

/-- Number of days in a month of a given year. -/
def daysInMonth (y : Int) (m : Nat) : Nat :=
  if m = 2 then (if isLeapYear y then 29 else 28)
  else if m = 4 ∨ m = 6 ∨ m = 9 ∨ m = 11 then 30
  else 31

/-- Valid calendar dates representable in the YYYY-MM-DD serialization used
by the program (4-digit year, real month and day ranges). -/
def isValidDate (d : CivilDate) : Prop :=
  0 ≤ d.year ∧ d.year < 10000 ∧
  1 ≤ d.month ∧ d.month ≤ 12 ∧
  1 ≤ d.day ∧ d.day ≤ daysInMonth d.year d.month

instance (d : CivilDate) : Decidable (isValidDate d) := by
  unfold isValidDate; infer_instance

/-- The calendar predecessor: models `end_date.sub(Duration::days(1))`. -/
def predDate (d : CivilDate) : CivilDate :=
  if 1 < d.day then ⟨d.year, d.month, d.day - 1⟩
  else if 1 < d.month then ⟨d.year, d.month - 1, daysInMonth d.year (d.month - 1)⟩
  else ⟨d.year - 1, 12, 31⟩

/-- Strict chronological order on calendar dates (lexicographic on
year, month, day). -/
def dateLt (a b : CivilDate) : Prop :=
  a.year < b.year ∨
    (a.year = b.year ∧ (a.month < b.month ∨ (a.month = b.month ∧ a.day < b.day)))

/-- The character for a single decimal digit. -/
def digitChar (n : Nat) : Char := Char.ofNat ('0'.toNat + n)

/-- Four-digit zero-padded decimal rendering (for values below 10000). -/
def render4 (n : Nat) : List Char :=
  [digitChar (n / 1000 % 10), digitChar (n / 100 % 10),
   digitChar (n / 10 % 10), digitChar (n % 10)]

/-- Two-digit zero-padded decimal rendering (for values below 100). -/
def render2 (n : Nat) : List Char :=
  [digitChar (n / 10 % 10), digitChar (n % 10)]

/-- Rendering of the year by the chrono item `%Y`: 4-digit zero pad inside
0..9999, and an explicit sign with at least four padded digits outside. -/
def formatYear (y : Int) : List Char :=
  if 0 ≤ y ∧ y < 10000 then render4 y.toNat
  else if 0 ≤ y then '+' :: Nat.toDigits 10 y.toNat
  else if -10000 < y then '-' :: render4 (-y).toNat
  else '-' :: Nat.toDigits 10 (-y).toNat

/-- Rendering of a date with the chrono format string "%Y-%m-%d", as used
at lines 63-64 of the source. -/
def formatDate (d : CivilDate) : String :=
  String.mk (formatYear d.year ++ '-' :: (render2 d.month ++ '-' :: render2 d.day))

/-- Decimal digit test on characters. -/
def isDigit (c : Char) : Bool := '0' ≤ c && c ≤ '9'

/-- Numeric value of a decimal digit character. -/
def digitVal (c : Char) : Nat := c.toNat - '0'.toNat

/-- Value of a big-endian list of decimal digit characters. -/
def digitsToNat (l : List Char) : Nat :=
  l.foldl (fun a c => 10 * a + digitVal c) 0

/-- Character-level body of the "%Y-%m-%d" parse: accepts exactly the
YYYY-MM-DD shape denoting a valid calendar date. -/
def parseDateChars : List Char → Option CivilDate
  | [y1, y2, y3, y4, '-', m1, m2, '-', d1, d2] =>
    if isDigit y1 && isDigit y2 && isDigit y3 && isDigit y4 &&
       isDigit m1 && isDigit m2 && isDigit d1 && isDigit d2 then
      let y : Int := (digitsToNat [y1, y2, y3, y4] : Nat)
      let m := digitsToNat [m1, m2]
      let d := digitsToNat [d1, d2]
      if 1 ≤ m ∧ m ≤ 12 ∧ 1 ≤ d ∧ d ≤ daysInMonth y m then
        some ⟨y, m, d⟩
      else none
    else none
  | _ => none

/-- Parsing a string back with the same "%Y-%m-%d" format (4-digit
year). -/
def parseDate (s : String) : Option CivilDate :=
  parseDateChars s.data

/-- The `DateInterval` request type of the billing API: a start and an end
date, both already serialized as strings. -/
structure DateInterval where
  start : String
  «end» : String
deriving DecidableEq, Repr

/-- Model of `get_date_interval_from_end_date` (lines 60-66 of the source):
start is one day before the given end date, both rendered "%Y-%m-%d". -/
def get_date_interval_from_end_date (end_date : CivilDate) : DateInterval :=
  { start := formatDate (predDate end_date), «end» := formatDate end_date }

/-- Value of a parsed `f32`; finite values are kept as exact decimal
rationals (see the module comment). -/
inductive F32Val where
  | finite (q : ℚ)
  | inf (neg : Bool)
  | nan
deriving DecidableEq, Repr

/-- Exact value of a decimal literal: sign, integer digits, fraction
digits and decimal exponent, as the rational
(intD.fracD) × 10^ex with the given sign. -/
def decimalRat (neg : Bool) (intD fracD : List Char) (ex : Int) : ℚ :=
  let m : Int := (digitsToNat intD * 10 ^ fracD.length + digitsToNat fracD : Nat)
  let sm := if neg then -m else m
  let e := ex - (fracD.length : Int)
  if 0 ≤ e then mkRat (sm * (10 : Int) ^ e.toNat) 1
  else mkRat sm ((10 : Nat) ^ (-e).toNat)

/-- Body of the float grammar after the optional leading sign, following
the grammar documented for Rust `f32::from_str`:
`'inf' | 'infinity' | 'nan' | Number`, case-insensitive special values,
`Number ::= Count '.'? Count? Exp? | '.' Count Exp?`,
`Exp ::= ('e'|'E') Sign? Count`. -/
def parseF32Body (neg : Bool) (cs : List Char) : Option F32Val :=
  let lower := cs.map Char.toLower
  if lower = "inf".data ∨ lower = "infinity".data then some (F32Val.inf neg)
  else if lower = "nan".data then some F32Val.nan
  else
    let (intD, r1) := cs.span isDigit
    let (hadDot, r2) : Bool × List Char :=
      match r1 with
      | '.' :: rest => (true, rest)
      | _ => (false, r1)
    let (fracD, r3) := if hadDot then r2.span isDigit else ([], r2)
    if intD.isEmpty && (!hadDot || fracD.isEmpty) then none
    else
      match r3 with
      | [] => some (F32Val.finite (decimalRat neg intD fracD 0))
      | e :: r4 =>
        if e = 'e' ∨ e = 'E' then
          let (eneg, r5) : Bool × List Char :=
            match r4 with
            | '+' :: rest => (false, rest)
            | '-' :: rest => (true, rest)
            | _ => (false, r4)
          let (expD, r6) := r5.span isDigit
          if expD.isEmpty || !r6.isEmpty then none
          else
            let ex : Int := if eneg then -(digitsToNat expD : Int) else (digitsToNat expD : Int)
            some (F32Val.finite (decimalRat neg intD fracD ex))
        else none

/-- Model of Rust `f32::from_str` (used at line 106 of the source): `none`
when the string is not parseable as a float. -/
def parseF32 (s : String) : Option F32Val :=
  match s.data with
  | '+' :: rest => parseF32Body false rest
  | '-' :: rest => parseF32Body true rest
  | rest => parseF32Body false rest

/-- The string constant `UNBLENDED_COST` of the source. -/
def UNBLENDED_COST : String := "UnblendedCost"

/-- A metric value of the billing report: optional amount and unit strings
(rusoto `MetricValue`). -/
structure MetricValue where
  amount : Option String
  unit : Option String
deriving DecidableEq, Repr

/-- The totals mapping of a bucket: a finite map from metric name to
metric value (rusoto `HashMap<String, MetricValue>`), modelled as an
association list looked up by key. -/
abbrev Totals := List (String × MetricValue)

/-- One time bucket of the billing report (rusoto `ResultByTime`); only
the `total` field is ever consulted by the program. -/
structure ResultByTime where
  total : Option Totals
deriving DecidableEq, Repr

/-- The billing report (rusoto `GetCostAndUsageResponse`); only the
`results_by_time` field is ever consulted by the program. -/
structure GetCostAndUsageResponse where
  results_by_time : Option (List ResultByTime)
deriving DecidableEq, Repr

/-- The distilled cost: parsed amount and currency unit (the `Cost`
struct of the source, whose `amount` field is an `f32`). -/
structure Cost where
  amount : F32Val
  unit : String
deriving DecidableEq, Repr

/-- Outcome of the extraction logic: a cost, a `Result` error carrying the
error string of the source, or a process abort (Rust panic). -/
inductive ExtractResult where
  | ok (c : Cost)
  | err (msg : String)
  | panic
deriving DecidableEq, Repr

/-- Model of the response-parsing part of `AwsCostClient::get_cost`
(lines 90-117 of the source), step by step:
absent `results_by_time` defaults to the empty sequence (`unwrap_or`);
an empty sequence fails with "Nothing first result" (`first().ok_or`);
an absent `total` fails with "Error" (`ok_or`);
the totals map is indexed with `UNBLENDED_COST`, which panics when the
key is absent (`&total_cost[UNBLENDED_COST]`);
an absent amount defaults to "0" (`unwrap_or`), then is parsed as `f32`,
failing with "Parse error Float32" when not numeric;
an absent unit defaults to "" (`unwrap_or`). -/
def extract (response : GetCostAndUsageResponse) : ExtractResult :=
  let results_by_times := response.results_by_time.getD []
  match results_by_times.head? with
  | none => ExtractResult.err "Nothing first result"
  | some first_result =>
    match first_result.total with
    | none => ExtractResult.err "Error"
    | some total_cost =>
      match total_cost.lookup UNBLENDED_COST with
      | none => ExtractResult.panic
      | some metric_value =>
        match parseF32 (metric_value.amount.getD "0") with
        | none => ExtractResult.err "Parse error Float32"
        | some amount =>
          ExtractResult.ok ⟨amount, metric_value.unit.getD ""⟩

/-- Model of `AwsCostClient::get_cost` at the transport boundary: a failed
billing query (`none`) collapses to the "Request error" result (line 88),
a successful one hands the response to the extraction logic. -/
def get_cost (queryOutcome : Option GetCostAndUsageResponse) : ExtractResult :=
  match queryOutcome with
  | none => ExtractResult.err "Request error"
  | some response => extract response

/-- The `CostGranularityType` enumeration of the source. -/
inductive CostGranularityType where
  | Monthly
  | Daily
  | Hourly
deriving DecidableEq, Repr

/-- The `name` method of `CostGranularityType` (lines 21-27). -/
def CostGranularityType.name : CostGranularityType → String
  | CostGranularityType.Monthly => "MONTHLY"
  | CostGranularityType.Daily => "DAILY"
  | CostGranularityType.Hourly => "HOURLY"

/-- The fields of rusoto `GetCostAndUsageRequest` that the program sets
(lines 81-86); the remaining fields stay at their defaults. -/
structure GetCostAndUsageRequest where
  granularity : Option String
  time_period : DateInterval
  metrics : Option (List String)
deriving DecidableEq, Repr

/-- The request built inside `AwsCostClient::get_cost` (lines 80-86), with
the date supplied for `Utc::today()`. -/
def buildCostRequest (g : CostGranularityType) (today : CivilDate) :
    GetCostAndUsageRequest :=
  { granularity := some g.name,
    time_period := get_date_interval_from_end_date today,
    metrics := some [UNBLENDED_COST] }

/-- Zero-pad a decimal rendering of a natural number to a given width. -/
def padNat (w : Nat) (n : Nat) : String :=
  let s := toString n
  String.mk (List.replicate (w - s.length) '0') ++ s

/-- Smallest k with k ≤ fuel added to acc such that d divides 10^k,
searching upward. -/
def minPowTenAux (d : Nat) : Nat → Nat → Nat
  | k, 0 => k
  | k, fuel + 1 => if d ∣ 10 ^ k then k else minPowTenAux d (k + 1) fuel

/-- Smallest exponent k (searched up to 64) with d dividing 10^k. -/
def minPowTen (d : Nat) : Nat := minPowTenAux d 0 64

/-- Decimal rendering of a finite float value, modelling Rust debug
formatting of `f32` on exactly representable decimal values: integers are
rendered with a trailing ".0", other values with their shortest exact
fraction digits. -/
def renderFinite (q : ℚ) : String :=
  let sgn := if q < 0 then "-" else ""
  let n := q.num.natAbs
  let d := q.den
  let k := minPowTen d
  if k = 0 then sgn ++ toString (n / d) ++ ".0"
  else
    let scaled := n * 10 ^ k / d
    sgn ++ toString (scaled / 10 ^ k) ++ "." ++ padNat k (scaled % 10 ^ k)

/-- Rendering of a parsed float by the Rust debug format item. -/
def renderAmount : F32Val → String
  | F32Val.finite q => renderFinite q
  | F32Val.inf neg => if neg then "-inf" else "inf"
  | F32Val.nan => "NaN"

/-- Model of the message construction at line 42 of the source: the debug
rendering of the amount and the unit substituted into the template. -/
def formatMessage (cost : Cost) : String :=
  "Usage cost: " ++ renderAmount cost.amount ++ " " ++ cost.unit

/-- The slack acknowledgment object, treated as opaque data. -/
structure PostMessageResponse where
  ok : Bool
deriving DecidableEq, Repr

/-- Outcome of a whole invocation of `main`: delivered acknowledgment,
an error result, or a process abort. -/
inductive MainOutcome where
  | ok (resp : PostMessageResponse)
  | err (msg : String)
  | panic
deriving DecidableEq, Repr

/-- Outcomes of the external collaborators of one invocation: the two env
variables, the billing query (at the transport level), the slack client
construction, and the chat-post call as a function of the posted text. -/
structure ExternalWorld where
  slackToken : Option String
  slackChannel : Option String
  queryOutcome : Option GetCostAndUsageResponse
  clientInit : Bool
  postOutcome : String → Option PostMessageResponse

/-- Model of `main` (lines 31-51): read the two env variables, query and
extract the cost, format the message, build the slack client and post the
message, failing fast at every step.  The second component records the
texts handed to the chat-post call, in order. -/
def runMain (w : ExternalWorld) : MainOutcome × List String :=
  match w.slackToken with
  | none => (MainOutcome.err "SLACK_API_TOKEN env var must be set", [])
  | some _ =>
    match w.slackChannel with
    | none => (MainOutcome.err "SLACK_CHANNEL_ID env var must be set", [])
    | some _ =>
      match get_cost w.queryOutcome with
      | ExtractResult.err m => (MainOutcome.err m, [])
      | ExtractResult.panic => (MainOutcome.panic, [])
      | ExtractResult.ok cost =>
        let message := formatMessage cost
        if w.clientInit then
          match w.postOutcome message with
          | none => (MainOutcome.err "Could not send massage", [message])
          | some resp => (MainOutcome.ok resp, [message])
        else (MainOutcome.err "Could not get default_client", [])

/-- C1 counterexample: on a report whose first bucket carries a totals
mapping without the requested metric key, the extraction does not return
an error result at all; it aborts (the Rust `HashMap` index panics). -/
theorem c1_counterexample :
    extract ⟨some [⟨some []⟩]⟩ = ExtractResult.panic := rfl

/-- C1 (amended): for every cost report whose first bucket has a totals
mapping that does not contain the requested metric key, the extraction
panics (the totals map is indexed with the absent key), rather than
returning a MetricNotFound failure result. -/
theorem c1_missing_metric_panics (r : GetCostAndUsageResponse) (b : ResultByTime)
    (rest : List ResultByTime) (t : Totals)
    (h1 : r.results_by_time = some (b :: rest)) (h2 : b.total = some t)
    (h3 : t.lookup UNBLENDED_COST = none) :
    extract r = ExtractResult.panic := by
  simp only [extract, h1, Option.getD_some, List.head?_cons, h2, h3]

/-- C1 witness: the amended statement at a concrete report whose totals
mapping holds only an unrelated key. -/
theorem c1_witness :
    extract ⟨some [⟨some [("SomethingElse", ⟨some "1", some "USD"⟩)]⟩]⟩ =
      ExtractResult.panic :=
  c1_missing_metric_panics _ _ _ _ rfl rfl (by decide)

/-- C3: for every report whose bucket sequence is absent or empty, the
extraction fails with the NoResultBucket error ("Nothing first result"),
and an absent sequence behaves exactly like an empty one. -/
theorem c3_no_result_bucket (r : GetCostAndUsageResponse)
    (h : r.results_by_time = none ∨ r.results_by_time = some []) :
    extract r = ExtractResult.err "Nothing first result" ∧
    extract r = extract ⟨some []⟩ := by
  rcases h with h | h <;> simp [extract, h]

/-- C3 witness: the statement at the report with the absent sequence. -/
theorem c3_witness :
    extract ⟨none⟩ = ExtractResult.err "Nothing first result" ∧
    extract ⟨none⟩ = extract ⟨some []⟩ :=
  c3_no_result_bucket ⟨none⟩ (Or.inl rfl)

/-- C4: for every report whose first bucket maps the requested metric to
a value pair with both amount and unit absent, the extraction succeeds
with amount 0.0 (the string "0" substituted and parsed) and the empty
unit. -/
theorem c4_absent_amount_unit_default (r : GetCostAndUsageResponse) (b : ResultByTime)
    (rest : List ResultByTime) (t : Totals)
    (h1 : r.results_by_time = some (b :: rest)) (h2 : b.total = some t)
    (h3 : t.lookup UNBLENDED_COST = some ⟨none, none⟩) :
    extract r = ExtractResult.ok ⟨F32Val.finite 0, ""⟩ := by
  have hp : parseF32 "0" = some (F32Val.finite 0) := by decide
  simp only [extract, h1, Option.getD_some, Option.getD_none, List.head?_cons, h2, h3, hp]

/-- C4 witness: the statement at a concrete report with an all-absent
metric value pair. -/
theorem c4_witness :
    extract ⟨some [⟨some [("UnblendedCost", ⟨none, none⟩)]⟩]⟩ =
      ExtractResult.ok ⟨F32Val.finite 0, ""⟩ :=
  c4_absent_amount_unit_default _ _ _ _ rfl rfl (by decide)

/-- C5: for every report whose first bucket maps the requested metric to
an amount string that is not parseable as a float, the extraction fails
with the AmountParseError error ("Parse error Float32"). -/
theorem c5_amount_parse_error (r : GetCostAndUsageResponse) (b : ResultByTime)
    (rest : List ResultByTime) (t : Totals) (mv : MetricValue) (s : String)
    (h1 : r.results_by_time = some (b :: rest)) (h2 : b.total = some t)
    (h3 : t.lookup UNBLENDED_COST = some mv)
    (h4 : mv.amount = some s) (h5 : parseF32 s = none) :
    extract r = ExtractResult.err "Parse error Float32" := by
  simp only [extract, h1, Option.getD_some, List.head?_cons, h2, h3, h4, h5]

/-- C5 witness: the statement at the concrete amount string
"not-a-number". -/
theorem c5_witness :
    extract ⟨some [⟨some [("UnblendedCost", ⟨some "not-a-number", some "USD"⟩)]⟩]⟩ =
      ExtractResult.err "Parse error Float32" :=
  c5_amount_parse_error _ _ _ _ ⟨some "not-a-number", some "USD"⟩ "not-a-number"
    rfl rfl (by decide) rfl (by decide)

/-- C6: for every report with a non-empty bucket sequence whose first
bucket lacks the totals mapping, the extraction fails with the
MissingTotals error ("Error"). -/
theorem c6_missing_totals (r : GetCostAndUsageResponse) (b : ResultByTime)
    (rest : List ResultByTime)
    (h1 : r.results_by_time = some (b :: rest)) (h2 : b.total = none) :
    extract r = ExtractResult.err "Error" := by
  simp only [extract, h1, Option.getD_some, List.head?_cons, h2]

/-- C6 witness: the statement at a concrete one-bucket report without
totals. -/
theorem c6_witness :
    extract ⟨some [⟨none⟩]⟩ = ExtractResult.err "Error" :=
  c6_missing_totals _ _ _ rfl rfl

/-- C7: whenever the billing query call itself fails, the invocation
fails with the QueryFailed error ("Request error") and the chat-post
call is never attempted: the list of posted texts is empty, whatever the
remaining external outcomes would have been. -/
theorem c7_query_failure_no_post (t c : String) (ci : Bool)
    (post : String → Option PostMessageResponse) :
    runMain ⟨some t, some c, none, ci, post⟩ =
      (MainOutcome.err "Request error", []) := rfl

/-- C9: the extraction result depends only on the first bucket: two
reports whose (defaulted) bucket sequences have the same head give
identical results, errors and panics included. -/
theorem c9_first_bucket_only (r1 r2 : GetCostAndUsageResponse)
    (h : (r1.results_by_time.getD []).head? = (r2.results_by_time.getD []).head?) :
    extract r1 = extract r2 := by
  simp only [extract]
  rw [h]

/-- C9 witness: the statement at two concrete reports sharing the first
bucket, the second report carrying an extra diverging bucket. -/
theorem c9_witness :
    extract ⟨some [⟨some [("UnblendedCost", ⟨some "1", some "USD"⟩)]⟩]⟩ =
      extract ⟨some [⟨some [("UnblendedCost", ⟨some "1", some "USD"⟩)]⟩, ⟨none⟩]⟩ :=
  c9_first_bucket_only _ _ rfl

/-- C10: for every cost, the formatted message is exactly "Usage cost: "
followed by the amount rendering, one space, and the unit; with the empty
unit the message therefore ends in a trailing space. -/
theorem c10_message_format (c : Cost) :
    formatMessage c = "Usage cost: " ++ renderAmount c.amount ++ " " ++ c.unit ∧
    (c.unit = "" → formatMessage c = "Usage cost: " ++ renderAmount c.amount ++ " ") := by
  refine ⟨rfl, fun hu => ?_⟩
  simp [formatMessage, hu]

/-- C10 witness: the statement at the defaulted cost (amount 0.0, empty
unit). -/
theorem c10_witness :
    formatMessage ⟨F32Val.finite 0, ""⟩ =
      "Usage cost: " ++ renderAmount (F32Val.finite 0) ++ " " :=
  (c10_message_format ⟨F32Val.finite 0, ""⟩).2 rfl

/-- Every month has at most 31 days. -/
theorem daysInMonth_le (y : Int) (m : Nat) : daysInMonth y m ≤ 31 := by
  unfold daysInMonth
  split
  · split <;> omega
  · split <;> omega

/-- The digit character of a digit value decodes back to that value. -/
theorem digitVal_digitChar (k : Nat) (h : k < 10) : digitVal (digitChar k) = k := by
  interval_cases k <;> decide

/-- The digit character of a digit value passes the digit test. -/
theorem isDigit_digitChar (k : Nat) (h : k < 10) : isDigit (digitChar k) = true := by
  interval_cases k <;> decide

/-- Reading back the four zero-padded digit characters of a value below
10000 recovers the value. -/
theorem digitsToNat_digits4 (n : Nat) (h : n < 10000) :
    digitsToNat [digitChar (n / 1000 % 10), digitChar (n / 100 % 10),
      digitChar (n / 10 % 10), digitChar (n % 10)] = n := by
  have h1 := digitVal_digitChar (n / 1000 % 10) (Nat.mod_lt (n / 1000) (by omega))
  have h2 := digitVal_digitChar (n / 100 % 10) (Nat.mod_lt (n / 100) (by omega))
  have h3 := digitVal_digitChar (n / 10 % 10) (Nat.mod_lt (n / 10) (by omega))
  have h4 := digitVal_digitChar (n % 10) (Nat.mod_lt n (by omega))
  simp only [digitsToNat, List.foldl, h1, h2, h3, h4]
  omega

/-- Reading back the two zero-padded digit characters of a value below
100 recovers the value. -/
theorem digitsToNat_digits2 (n : Nat) (h : n < 100) :
    digitsToNat [digitChar (n / 10 % 10), digitChar (n % 10)] = n := by
  have h1 := digitVal_digitChar (n / 10 % 10) (Nat.mod_lt (n / 10) (by omega))
  have h2 := digitVal_digitChar (n % 10) (Nat.mod_lt n (by omega))
  simp only [digitsToNat, List.foldl, h1, h2]
  omega

/-- C2: for every calendar date, the date window has start one day
before the date and end the date itself, both rendered "%Y-%m-%d"; the
start strictly precedes the end; and the window of the built billing
request does not depend on the granularity. -/
theorem c2_date_window (d : CivilDate) (h : isValidDate d) (g g' : CostGranularityType) :
    get_date_interval_from_end_date d =
      { start := formatDate (predDate d), «end» := formatDate d } ∧
    dateLt (predDate d) d ∧
    (buildCostRequest g d).time_period = (buildCostRequest g' d).time_period := by
  obtain ⟨-, -, hm1, hm2, hd1, -⟩ := h
  refine ⟨rfl, ?_, rfl⟩
  by_cases hday : 1 < d.day
  · simp only [predDate, if_pos hday, dateLt]
    exact Or.inr ⟨trivial, Or.inr ⟨trivial, by omega⟩⟩
  · by_cases hmon : 1 < d.month
    · simp only [predDate, if_neg hday, if_pos hmon, dateLt]
      exact Or.inr ⟨trivial, Or.inl (by omega)⟩
    · simp only [predDate, if_neg hday, if_neg hmon, dateLt]
      exact Or.inl (by omega)

/-- C2 witness: the statement at the date 2024-03-15 with monthly and
daily granularities. -/
theorem c2_witness :
    get_date_interval_from_end_date ⟨2024, 3, 15⟩ =
      { start := formatDate (predDate ⟨2024, 3, 15⟩), «end» := formatDate ⟨2024, 3, 15⟩ } ∧
    dateLt (predDate ⟨2024, 3, 15⟩) ⟨2024, 3, 15⟩ ∧
    (buildCostRequest CostGranularityType.Monthly ⟨2024, 3, 15⟩).time_period =
      (buildCostRequest CostGranularityType.Daily ⟨2024, 3, 15⟩).time_period :=
  c2_date_window ⟨2024, 3, 15⟩ (by decide) CostGranularityType.Monthly CostGranularityType.Daily

/-- C8: formatting a calendar date with the "%Y-%m-%d" format of the date
window computation and parsing the string back with the same format
yields the original date. -/
theorem c8_format_parse_roundtrip (d : CivilDate) (h : isValidDate d) :
    parseDate (formatDate d) = some d := by
  obtain ⟨hy0, hy1, hm1, hm2, hd1, hd2⟩ := h
  have hdle : d.day ≤ 31 := le_trans hd2 (daysInMonth_le _ _)
  have hylt : d.year.toNat < 10000 := by omega
  have hmlt : d.month < 100 := by omega
  have hdlt : d.day < 100 := by omega
  have hyear : formatYear d.year = render4 d.year.toNat := by
    unfold formatYear
    rw [if_pos ⟨hy0, hy1⟩]
  have hdata : (formatDate d).data =
      [digitChar (d.year.toNat / 1000 % 10), digitChar (d.year.toNat / 100 % 10),
       digitChar (d.year.toNat / 10 % 10), digitChar (d.year.toNat % 10), '-',
       digitChar (d.month / 10 % 10), digitChar (d.month % 10), '-',
       digitChar (d.day / 10 % 10), digitChar (d.day % 10)] := by
    simp [formatDate, hyear, render4, render2]
  have i1 := isDigit_digitChar (d.year.toNat / 1000 % 10) (Nat.mod_lt _ (by omega))
  have i2 := isDigit_digitChar (d.year.toNat / 100 % 10) (Nat.mod_lt _ (by omega))
  have i3 := isDigit_digitChar (d.year.toNat / 10 % 10) (Nat.mod_lt _ (by omega))
  have i4 := isDigit_digitChar (d.year.toNat % 10) (Nat.mod_lt _ (by omega))
  have i5 := isDigit_digitChar (d.month / 10 % 10) (Nat.mod_lt _ (by omega))
  have i6 := isDigit_digitChar (d.month % 10) (Nat.mod_lt _ (by omega))
  have i7 := isDigit_digitChar (d.day / 10 % 10) (Nat.mod_lt _ (by omega))
  have i8 := isDigit_digitChar (d.day % 10) (Nat.mod_lt _ (by omega))
  have e4 := digitsToNat_digits4 d.year.toNat hylt
  have e2m := digitsToNat_digits2 d.month hmlt
  have e2d := digitsToNat_digits2 d.day hdlt
  have hcast : ((d.year.toNat : Nat) : Int) = d.year := Int.toNat_of_nonneg hy0
  rw [parseDate, hdata]
  simp only [parseDateChars, i1, i2, i3, i4, i5, i6, i7, i8, Bool.and_self, if_true,
    e4, e2m, e2d, hcast]
  rw [if_pos ⟨hm1, hm2, hd1, hd2⟩]

/-- C8 witness: the round trip at the date 2024-03-15. -/
theorem c8_witness : parseDate (formatDate ⟨2024, 3, 15⟩) = some ⟨2024, 3, 15⟩ :=
  c8_format_parse_roundtrip ⟨2024, 3, 15⟩ (by decide)
